import Mathlib

/-!
Shallow embedding of the FIX 4.4 market-data client
(`examples/C++/marketdata-client.cpp`) and proofs about its behaviour.

The client is a thin application layer over a FIX session engine
(QuickFIX).  We embed the application-level code faithfully:

* `splitCSV` mirrors the character loop of the C++ `splitCSV`;
* FIX messages built by the client are modelled as a message type
  (`Msg`) holding the type string (tag 35), header fields, body fields
  and repeating groups in insertion order, each field a
  (tag, value-string) pair -- exactly the data the QuickFIX setters
  receive;
* the settings dictionary (`FIX::Dictionary`) is an association list
  with `has` / `getString`, as used by the client;
* each callback / helper of class `App` becomes a function from its
  inputs (and the mutable state `AppState`, i.e. the `firstData_` flag)
  to the new state and the list of observable outputs (console lines,
  emitted market-data records, sent messages, logout requests);
* `main`'s control flow (usage check, try/catch) is `mainExit`.

Numeric conversion of prices (`std::stod`) is floating point and is not
modelled; the emitted record carries the MDEntryPx field value as read
from the message, which is what the claims quantify over.
-/

/-- The per-symbol list splitter of the client: iterate characters,
accumulate the current chunk, flush the chunk at a comma when it is
non-empty, flush the final chunk when it is non-empty.  `cur` is the
accumulator `cur` of the C++ loop. -/
def splitCSVAux (cur : List Char) : List Char → List (List Char)
  | [] => if cur.isEmpty then [] else [cur]
  | c :: cs =>
    if c = ',' then
      if cur.isEmpty then splitCSVAux [] cs else cur :: splitCSVAux [] cs
    else
      splitCSVAux (cur ++ [c]) cs

/-- `splitCSV` of the source file, on Lean strings. -/
def splitCSV (s : String) : List String :=
  (splitCSVAux [] s.toList).map (fun l => String.mk l)

/-- Model of `FIX::Dictionary`: the named section of the settings file,
a finite map from string keys to string values. -/
abbrev Dictionary := List (String × String)

/-- `Dictionary::has`. -/
def Dictionary.has (d : Dictionary) (k : String) : Bool :=
  (d.lookup k).isSome

/-- `Dictionary::getString` (the client only calls it under `has`). -/
def Dictionary.getString (d : Dictionary) (k : String) : String :=
  (d.lookup k).getD ("")

/-- One sub-record of a FIX repeating group (a `FIX::Group`): its fields in order. -/
structure FixGroup where
  fields : List (Nat × String)
deriving Repr, DecidableEq

/-- A FIX message as the client assembles it: message type (tag 35),
header fields, body fields and repeating-group sub-records, each tagged
with its count tag (QuickFIX emits the count from the stored groups). -/
structure Msg where
  msgType : String
  header : List (Nat × String)
  body : List (Nat × String)
  groups : List (Nat × FixGroup)
deriving Repr, DecidableEq

/-- Look a body field up by tag. -/
def Msg.getBody (m : Msg) (t : Nat) : Option String :=
  m.body.lookup t

/-- The MDEntryType (269) values of the NoMDEntryTypes (267) group
entries, in order. -/
def Msg.mdEntryTypes (m : Msg) : List String :=
  (m.groups.filter (fun g => g.1 == 267)).filterMap (fun g => g.2.fields.lookup 269)

/-- The Symbol (55) values of the NoRelatedSym (146) group entries, in
order. -/
def Msg.relatedSyms (m : Msg) : List String :=
  (m.groups.filter (fun g => g.1 == 146)).filterMap (fun g => g.2.fields.lookup 55)

/-- The Symbols setting the client subscribes to:
`d.has("Symbols") ? d.getString("Symbols") : "GBPUSD"`. -/
def rawSymbols (d : Dictionary) : String :=
  if d.has ("Symbols") then d.getString ("Symbols") else "GBPUSD"

/-- `App::sendSubscribe`: MarketDataRequest (35=V) with MDReqID `REQ-1`,
SubscriptionRequestType 1, MarketDepth 1, NoMDEntryTypes entries 0 and
1, and one NoRelatedSym entry per symbol of the Symbols setting. -/
def sendSubscribe (d : Dictionary) : Msg :=
  { msgType := "V"
    header := []
    body := [(262, "REQ-1"), (263, "1"), (264, "1")]
    groups :=
      [(267, ⟨[(269, "0")]⟩), (267, ⟨[(269, "1")]⟩)]
        ++ (splitCSV (rawSymbols d)).map (fun s => (146, ⟨[(55, s)]⟩)) }

/-- `App::sendUnsubscribeAll`: MarketDataRequest (35=V) with MDReqID
`REQ-1`, SubscriptionRequestType 2, MarketDepth 0, and one NoRelatedSym
entry per symbol of the Symbols setting. -/
def sendUnsubscribeAll (d : Dictionary) : Msg :=
  { msgType := "V"
    header := []
    body := [(262, "REQ-1"), (263, "2"), (264, "0")]
    groups := (splitCSV (rawSymbols d)).map (fun s => (146, ⟨[(55, s)]⟩)) }

/-- Side of an emitted quote record, as printed by the snapshot
handler. -/
inductive Side where
  | BID
  | ASK
deriving Repr, DecidableEq

/-- Observable effects of the client: console lines, emitted top-of-book
records (the per-entry output of the snapshot handler), messages sent
via `Session::sendToTarget`, and logout requests. -/
inductive Output where
  | log (line : String)
  | record (symbol : String) (side : Side) (px : String)
  | send (m : Msg)
  | logoutReq (reason : String)
deriving Repr, DecidableEq

/-- The messages sent among a list of outputs, in order. -/
def sends (outs : List Output) : List Msg :=
  outs.filterMap (fun o => match o with | .send m => some m | _ => none)

/-- The market-data records among a list of outputs, in order. -/
def records (outs : List Output) : List (String × Side × String) :=
  outs.filterMap (fun o => match o with
    | .record s sd px => some (s, sd, px)
    | _ => none)

/-- Mutable state of class `App` observable by the embedder: the
`firstData_` flag (the one-shot first-data condition). -/
structure AppState where
  firstData : Bool
deriving Repr, DecidableEq

/-- `App::onLogon`: log the session id and send the subscription. -/
def onLogon (d : Dictionary) (sid : String) : List Output :=
  [.log ("Logon: " ++ sid), .send (sendSubscribe d)]

/-- `App::onLogout`: log the session id. -/
def onLogout (sid : String) : List Output :=
  [.log ("Logout: " ++ sid)]

/-- `FieldMap::setField`: overwrite the field with this tag when
present, store it otherwise. -/
def setField (fs : List (Nat × String)) (t : Nat) (v : String) : List (Nat × String) :=
  if (fs.lookup t).isSome then
    fs.map (fun p => if p.1 = t then (t, v) else p)
  else
    fs ++ [(t, v)]

/-- `App::toAdmin`: on an outbound Logon (35=A) inject Username (553)
and Password (554) from the settings when defined; leave every other
admin message untouched. -/
def toAdmin (d : Dictionary) (m : Msg) : Msg :=
  if m.msgType = "A" then
    let m1 :=
      if d.has ("Username") then
        { m with body := setField m.body 553 (d.getString ("Username")) }
      else m
    if d.has ("Password") then
      { m1 with body := setField m1.body 554 (d.getString ("Password")) }
    else m1
  else m

/-- One NoMDEntries (268) sub-record of an inbound snapshot, carrying
the values of MDEntryType (269) and MDEntryPx (270) the handler reads
with `getField`. -/
structure MDEntryGroup where
  mdEntryType : String
  mdEntryPx : String
deriving Repr, DecidableEq

/-- Inbound MarketDataSnapshotFullRefresh (35=W): the Symbol (55) field
and the NoMDEntries (268) sub-records; the count field equals the
number of stored groups on a parsed message. -/
structure SnapshotMsg where
  symbol : String
  entries : List MDEntryGroup
deriving Repr, DecidableEq

/-- The classification the handler applies to the first character of
MDEntryType: BID for a leading 0, ASK for anything else
(`t=='0'?"BID":"ASK"`). -/
def classifyChar (t : Char) : Side :=
  if t = '0' then .BID else .ASK

/-- First character of the MDEntryType string, as `s[0]` on a
`std::string` (the null character when the string is empty), then
classified. -/
def entrySide (t : String) : Side :=
  classifyChar (t.toList.headD (Char.ofNat 0))

/-- `App::onMessage(MarketDataSnapshotFullRefresh)`: read Symbol, log
the header line, emit one record per NoMDEntries group (side from the
first character of 269, price from 270), and set the first-data flag. -/
def onMessageSnapshot (st : AppState) (snap : SnapshotMsg) : AppState × List Output :=
  ({ st with firstData := true },
    .log ("W: " ++ snap.symbol ++ " entries=" ++ toString snap.entries.length)
      :: snap.entries.map (fun g => .record snap.symbol (entrySide g.mdEntryType) g.mdEntryPx))

/-- Inbound MarketDataRequestReject (35=Y): its fields by tag, probed
with `isSetField` / `getField`. -/
structure RejectMsg where
  fields : List (Nat × String)
deriving Repr, DecidableEq

/-- `FieldMap::isSetField`. -/
def RejectMsg.isSetField (r : RejectMsg) (t : Nat) : Bool :=
  (r.fields.lookup t).isSome

/-- `FieldMap::getField` (the handler only calls it under
`isSetField`). -/
def RejectMsg.getField (r : RejectMsg) (t : Nat) : String :=
  (r.fields.lookup t).getD ("")

/-- `App::onMessage(MarketDataRequestReject)`: print MDReqID (262),
MDReqRejReason (281) and Text (58) -- each defaulted to the empty
string when unset -- and nothing else. -/
def onMessageReject (st : AppState) (rej : RejectMsg) : AppState × List Output :=
  let id := if rej.isSetField 262 then rej.getField 262 else ""
  let rs := if rej.isSetField 281 then rej.getField 281 else ""
  let tx := if rej.isSetField 58 then rej.getField 58 else ""
  (st, [.log ("MD Reject (35=Y) MDReqID=" ++ id ++ " reason(281)=" ++ rs ++ " text=" ++ tx)])

/-- `App::waitFirstDataMs`: wait on the condition variable up to the
deadline for the `firstData_` flag; the result is the flag as observed
at (or before) the deadline, and the application state is untouched.
The wall-clock bound itself is realised by the condition variable; in
the embedding the state passed in is the state the handlers have
produced by the deadline. -/
def waitFirstDataMs (st : AppState) (_ms : Nat) : Bool × AppState :=
  (st.firstData, st)

/-- The inbound / lifecycle events the session engine can deliver to
the `App` callbacks. -/
inductive Event where
  | logon (sid : String)
  | snapshot (snap : SnapshotMsg)
  | reject (rej : RejectMsg)
  | logout (sid : String)
deriving Repr, DecidableEq

/-- One callback dispatch: the event is routed to the matching `App`
handler (application messages through `fromApp` / `crack`). -/
def step (d : Dictionary) (st : AppState) (e : Event) : AppState × List Output :=
  match e with
  | .logon sid => (st, onLogon d sid)
  | .snapshot snap => onMessageSnapshot st snap
  | .reject rej => onMessageReject st rej
  | .logout sid => (st, onLogout sid)

/-- Fold a sequence of delivered events through the `App` state. -/
def runTrace (d : Dictionary) (st : AppState) : List Event → AppState
  | [] => st
  | e :: es => runTrace d (step d st e).1 es

/-- The operator-initiated shutdown sequence of `main`: send the
unsubscribe request, then -- when a session is configured and found --
request Logout with reason text. -/
def operatorShutdown (d : Dictionary) (sids : List String) (lookupOk : Bool) : List Output :=
  .send (sendUnsubscribeAll d)
    :: (if sids.isEmpty then [] else if lookupOk then [.logoutReq ("Client exit")] else [])

/-- Control flow of `main`: exit code and error-stream lines.  `args`
is `argv` without the program name (so `argc < 2` is `args = []`);
`body` abstracts the try block, which either returns cleanly or lets an
exception escape with a message. -/
def mainExit (prog : String) (args : List String) (body : Except String Unit) : Nat × List String :=
  if args.isEmpty then
    (2, ["usage: " ++ prog ++ " client.cfg"])
  else
    match body with
    | .ok _ => (0, [])
    | .error e => (1, ["fatal: " ++ e])

/-! ### Helper lemmas -/

/-- The splitter agrees with `List.splitOn` followed by dropping empty
chunks, for any comma-free accumulator. -/
theorem splitCSVAux_splitOn (cs : List Char) : ∀ cur : List Char, ',' ∉ cur →
    splitCSVAux cur cs = ((cur ++ cs).splitOn ',').filter (fun t => !t.isEmpty) := by
  induction cs with
  | nil =>
    intro cur hcur
    have h1 : (cur ++ ([] : List Char)).splitOn ',' = [cur] := by
      rw [List.append_nil, List.splitOn]
      exact List.splitOnP_eq_single _ _
        (fun x hx => by simp only [beq_iff_eq]; exact fun h => hcur (h ▸ hx))
    rw [h1]
    cases cur with
    | nil => simp [splitCSVAux]
    | cons a l => simp [splitCSVAux]
  | cons c cs ih =>
    intro cur hcur
    by_cases hc : c = ','
    · subst hc
      have hfirst : (cur ++ ',' :: cs).splitOn ',' = cur :: cs.splitOn ',' := by
        rw [List.splitOn]
        exact List.splitOnP_first _ _
          (fun x hx => by simp only [beq_iff_eq]; exact fun h => hcur (h ▸ hx)) ','
          (by simp) cs
      rw [hfirst]
      cases cur with
      | nil =>
        simp only [splitCSVAux, List.isEmpty_nil, if_true, if_pos rfl]
        rw [ih [] (by simp), List.nil_append]
        simp [List.splitOn]
      | cons a l =>
        simp only [splitCSVAux, List.isEmpty_cons, if_pos rfl]
        rw [ih [] (by simp), List.nil_append]
        simp [List.splitOn]
    · have hcur2 : ',' ∉ cur ++ [c] := by
        intro hm
        rcases List.mem_append.mp hm with h | h
        · exact hcur h
        · simp at h; exact hc h.symm
      have heq : splitCSVAux cur (c :: cs) = splitCSVAux (cur ++ [c]) cs := by
        simp [splitCSVAux, hc]
      rw [heq, ih (cur ++ [c]) hcur2, List.append_assoc, List.singleton_append]

/-- Every chunk the splitter produces is non-empty and comma-free. -/
theorem splitCSVAux_mem (cs : List Char) : ∀ cur t : List Char, ',' ∉ cur →
    t ∈ splitCSVAux cur cs → t ≠ [] ∧ ',' ∉ t := by
  induction cs with
  | nil =>
    intro cur t hcur ht
    cases cur with
    | nil => simp [splitCSVAux] at ht
    | cons a l =>
      simp [splitCSVAux] at ht
      subst ht
      exact ⟨by simp, hcur⟩
  | cons c cs ih =>
    intro cur t hcur ht
    by_cases hc : c = ','
    · subst hc
      cases cur with
      | nil =>
        simp only [splitCSVAux, List.isEmpty_nil, if_pos rfl] at ht
        exact ih [] t (by simp) ht
      | cons a l =>
        simp only [splitCSVAux, List.isEmpty_cons, if_pos rfl] at ht
        rcases List.mem_cons.mp ht with h | h
        · subst h; exact ⟨by simp, hcur⟩
        · exact ih [] t (by simp) h
    · have hcur2 : ',' ∉ cur ++ [c] := by
        intro hm
        rcases List.mem_append.mp hm with h | h
        · exact hcur h
        · simp at h; exact hc h.symm
      have heq : splitCSVAux cur (c :: cs) = splitCSVAux (cur ++ [c]) cs := by
        simp [splitCSVAux, hc]
      rw [heq] at ht
      exact ih (cur ++ [c]) t hcur2 ht

/-- Extracting Symbol values from the mapped NoRelatedSym groups gives
the symbol list back. -/
theorem relatedSyms_of_map (syms : List String) :
    (((syms.map (fun s => ((146 : Nat), (⟨[(55, s)]⟩ : FixGroup)))).filter
        (fun g => g.1 == 146)).filterMap (fun g => g.2.fields.lookup 55)) = syms := by
  induction syms with
  | nil => rfl
  | cons s ss ih => simpa [List.lookup] using ih

/-- The mapped NoRelatedSym groups contribute nothing to the
NoMDEntryTypes extraction. -/
theorem filter267_of_map (syms : List String) :
    ((syms.map (fun s => ((146 : Nat), (⟨[(55, s)]⟩ : FixGroup)))).filter
        (fun g => g.1 == 267)) = [] := by
  induction syms with
  | nil => rfl
  | cons s ss ih => simp [ih]

/-- The subscription request carries exactly the configured symbols. -/
theorem sendSubscribe_relatedSyms (d : Dictionary) :
    (sendSubscribe d).relatedSyms = splitCSV (rawSymbols d) := by
  have h2 : List.filter (fun g => g.1 == 146)
      [((267 : Nat), (⟨[(269, "0")]⟩ : FixGroup)), (267, ⟨[(269, "1")]⟩)] = [] := rfl
  simp only [Msg.relatedSyms, sendSubscribe, List.filter_append, h2, List.nil_append]
  rw [relatedSyms_of_map]

/-- The unsubscribe request carries exactly the configured symbols. -/
theorem sendUnsubscribeAll_relatedSyms (d : Dictionary) :
    (sendUnsubscribeAll d).relatedSyms = splitCSV (rawSymbols d) := by
  simp only [Msg.relatedSyms, sendUnsubscribeAll]
  rw [relatedSyms_of_map]

/-- Looking up the overwritten tag after the in-place branch of
`setField`. -/
theorem lookup_replace (fs : List (Nat × String)) (t : Nat) (v : String) :
    (fs.map (fun p => if p.1 = t then (t, v) else p)).lookup t
      = if (fs.lookup t).isSome then some v else none := by
  induction fs with
  | nil => simp
  | cons p ps ih =>
    obtain ⟨a, b⟩ := p
    rw [List.map_cons]
    by_cases ha : a = t
    · subst ha
      rw [if_pos (show ((a, b) : Nat × String).1 = a from rfl)]
      rw [List.lookup_cons_self, List.lookup_cons_self]
      simp
    · have hba : (t == a) = false := beq_false_of_ne (Ne.symm ha)
      rw [if_neg (show ¬ ((a, b) : Nat × String).1 = t from ha)]
      rw [List.lookup_cons, List.lookup_cons]
      simp only [hba, ih]

/-- The in-place branch of `setField` leaves every other tag alone. -/
theorem lookup_replace_ne (fs : List (Nat × String)) (t : Nat) (v : String) (u : Nat)
    (h : u ≠ t) :
    (fs.map (fun p => if p.1 = t then (t, v) else p)).lookup u = fs.lookup u := by
  induction fs with
  | nil => simp
  | cons p ps ih =>
    obtain ⟨a, b⟩ := p
    rw [List.map_cons]
    by_cases ha : a = t
    · subst ha
      have hba : (u == a) = false := beq_false_of_ne h
      rw [if_pos (show ((a, b) : Nat × String).1 = a from rfl)]
      rw [List.lookup_cons, List.lookup_cons]
      simp only [hba, ih]
    · rw [if_neg (show ¬ ((a, b) : Nat × String).1 = t from ha)]
      rw [List.lookup_cons, List.lookup_cons]
      cases hua : (u == a) <;> simp only [ih]

/-- Looking up the stored tag after the append branch of `setField`. -/
theorem lookup_append_single (fs : List (Nat × String)) (t : Nat) (v : String) :
    (fs.lookup t).isSome = false → (fs ++ [(t, v)]).lookup t = some v := by
  induction fs with
  | nil => intro _; simp
  | cons p ps ih =>
    intro h
    obtain ⟨a, b⟩ := p
    rw [List.lookup_cons] at h
    rw [List.cons_append, List.lookup_cons]
    cases hta : (t == a) with
    | true => rw [hta] at h; simp at h
    | false => rw [hta] at h; exact ih h

/-- The append branch of `setField` leaves every other tag alone. -/
theorem lookup_append_single_ne (fs : List (Nat × String)) (t : Nat) (v : String) (u : Nat)
    (h : u ≠ t) : (fs ++ [(t, v)]).lookup u = fs.lookup u := by
  induction fs with
  | nil => simp [List.lookup_cons, beq_false_of_ne h]
  | cons p ps ih =>
    obtain ⟨a, b⟩ := p
    rw [List.cons_append, List.lookup_cons, List.lookup_cons]
    cases hua : (u == a) with
    | true => rfl
    | false => exact ih

/-- After `setField`, the written tag holds the written value. -/
theorem lookup_setField_self (fs : List (Nat × String)) (t : Nat) (v : String) :
    (setField fs t v).lookup t = some v := by
  unfold setField
  by_cases h : (fs.lookup t).isSome
  · rw [if_pos h, lookup_replace, if_pos h]
  · rw [if_neg h]
    refine lookup_append_single fs t v ?_
    cases hb : (fs.lookup t).isSome with
    | true => exact absurd hb h
    | false => rfl

/-- `setField` leaves every other tag unchanged. -/
theorem lookup_setField_ne (fs : List (Nat × String)) (t : Nat) (v : String) (u : Nat)
    (h : u ≠ t) : (setField fs t v).lookup u = fs.lookup u := by
  unfold setField
  by_cases hs : (fs.lookup t).isSome
  · rw [if_pos hs]; exact lookup_replace_ne fs t v u h
  · rw [if_neg hs]; exact lookup_append_single_ne fs t v u h

/-- Extracting the records from the per-entry outputs of the snapshot
handler gives one record per entry. -/
theorem records_of_map (sym : String) (es : List MDEntryGroup) :
    records (es.map (fun g => .record sym (entrySide g.mdEntryType) g.mdEntryPx))
      = es.map (fun g => (sym, entrySide g.mdEntryType, g.mdEntryPx)) := by
  induction es with
  | nil => rfl
  | cons g gs ih => simp [records] at ih ⊢; exact ih

/-- The snapshot handler sends no message. -/
theorem sends_of_map (sym : String) (es : List MDEntryGroup) :
    sends (es.map (fun g => .record sym (entrySide g.mdEntryType) g.mdEntryPx)) = [] := by
  induction es with
  | nil => rfl
  | cons g gs ih => simp [sends, ih]

/-- Every callback except the snapshot handler leaves the `App` state
unchanged. -/
theorem step_fst_of_not_snapshot (d : Dictionary) (st : AppState) (e : Event)
    (h : ∀ snap : SnapshotMsg, e ≠ .snapshot snap) : (step d st e).1 = st := by
  cases e with
  | logon sid => rfl
  | snapshot snap => exact absurd rfl (h snap)
  | reject rej => rfl
  | logout sid => rfl

/-- A trace without snapshot events leaves the first-data flag where it
started. -/
theorem runTrace_no_snapshot (d : Dictionary) (evs : List Event) :
    ∀ st : AppState, (∀ snap : SnapshotMsg, Event.snapshot snap ∉ evs) →
      runTrace d st evs = st := by
  induction evs with
  | nil => intro st _; rfl
  | cons e es ih =>
    intro st h
    rw [runTrace]
    rw [step_fst_of_not_snapshot d st e
      (fun snap he => h snap (he ▸ List.mem_cons_self e es))]
    exact ih st (fun snap hm => h snap (List.mem_cons_of_mem e hm))

/-! ### Claims -/

/-- C1: on every logon event the client builds and sends exactly one
MarketDataRequest (35=V) with MDReqID (262) REQ-1,
SubscriptionRequestType (263) 1, MarketDepth (264) 1, a NoMDEntryTypes
(267) group with exactly the two entries 0 (Bid) then 1 (Offer), and a
NoRelatedSym (146) group with one entry per configured symbol in the
configured order. -/
theorem C1_onLogon_single_subscribe (d : Dictionary) (sid : String) :
    sends (onLogon d sid) = [sendSubscribe d]
    ∧ (sendSubscribe d).msgType = "V"
    ∧ (sendSubscribe d).getBody 262 = some ("REQ-1")
    ∧ (sendSubscribe d).getBody 263 = some ("1")
    ∧ (sendSubscribe d).getBody 264 = some ("1")
    ∧ (sendSubscribe d).mdEntryTypes = ["0", "1"]
    ∧ (sendSubscribe d).relatedSyms = splitCSV (rawSymbols d) := by
  refine ⟨rfl, rfl, rfl, rfl, rfl, ?_, sendSubscribe_relatedSyms d⟩
  simp only [Msg.mdEntryTypes, sendSubscribe, List.filter_append, filter267_of_map,
    List.append_nil]
  rfl

/-- C2: on every inbound MarketDataSnapshotFullRefresh (35=W) the
handler reads Symbol (55), emits exactly one observable record per
NoMDEntries (268) group -- carrying the entry side classified from
MDEntryType (269) and the MDEntryPx (270) value -- and sets the
first-data signal. -/
theorem C2_snapshot_emits_records (st : AppState) (snap : SnapshotMsg) :
    ((onMessageSnapshot st snap).1).firstData = true
    ∧ records (onMessageSnapshot st snap).2
        = snap.entries.map (fun g => (snap.symbol, entrySide g.mdEntryType, g.mdEntryPx))
    ∧ (records (onMessageSnapshot st snap).2).length = snap.entries.length := by
  have h2 : records (onMessageSnapshot st snap).2
      = snap.entries.map (fun g => (snap.symbol, entrySide g.mdEntryType, g.mdEntryPx)) :=
    records_of_map snap.symbol snap.entries
  exact ⟨rfl, h2, by rw [h2, List.length_map]⟩

/-- C3: operator-initiated shutdown first sends a MarketDataRequest
with SubscriptionRequestType (263) 2 carrying the same MDReqID and the
same symbol set as the subscription, and only afterwards requests
Logout. -/
theorem C3_shutdown_unsubscribe_then_logout (d : Dictionary) (sids : List String)
    (look : Bool) (hs : sids.isEmpty = false) (hl : look = true) :
    operatorShutdown d sids look
        = [Output.send (sendUnsubscribeAll d), Output.logoutReq ("Client exit")]
    ∧ (sendUnsubscribeAll d).getBody 263 = some ("2")
    ∧ (sendUnsubscribeAll d).getBody 262 = (sendSubscribe d).getBody 262
    ∧ (sendUnsubscribeAll d).relatedSyms = (sendSubscribe d).relatedSyms := by
  subst hl
  refine ⟨?_, rfl, rfl, ?_⟩
  · simp [operatorShutdown, hs]
  · rw [sendUnsubscribeAll_relatedSyms, sendSubscribe_relatedSyms]

/-- Witness for C3 at a concrete settings dictionary and session
list. -/
theorem C3_shutdown_witness :
    operatorShutdown ([] : Dictionary) ["S1"] true
        = [Output.send (sendUnsubscribeAll ([] : Dictionary)),
           Output.logoutReq ("Client exit")]
    ∧ (sendUnsubscribeAll ([] : Dictionary)).getBody 263 = some ("2")
    ∧ (sendUnsubscribeAll ([] : Dictionary)).getBody 262
        = (sendSubscribe ([] : Dictionary)).getBody 262
    ∧ (sendUnsubscribeAll ([] : Dictionary)).relatedSyms
        = (sendSubscribe ([] : Dictionary)).relatedSyms :=
  C3_shutdown_unsubscribe_then_logout ([] : Dictionary) ["S1"] true rfl rfl

/-- C4: the MarketDataRequestReject (35=Y) handler leaves the
application state unchanged, sends no message and requests no logout
(no automatic retry), and surfaces MDReqID (262), MDReqRejReason (281)
and Text (58) in its diagnostic line. -/
theorem C4_reject_surfaced_no_retry (st : AppState) (rej : RejectMsg) :
    (onMessageReject st rej).1 = st
    ∧ sends (onMessageReject st rej).2 = []
    ∧ (∀ o ∈ (onMessageReject st rej).2, ∀ reason : String, o ≠ Output.logoutReq reason)
    ∧ (rej.isSetField 262 = true → rej.isSetField 281 = true → rej.isSetField 58 = true →
        (onMessageReject st rej).2
          = [Output.log ("MD Reject (35=Y) MDReqID=" ++ rej.getField 262
              ++ " reason(281)=" ++ rej.getField 281 ++ " text=" ++ rej.getField 58)]) := by
  refine ⟨rfl, rfl, ?_, ?_⟩
  · intro o ho reason
    simp only [onMessageReject, List.mem_singleton] at ho
    subst ho
    simp
  · intro h1 h2 h3
    simp [onMessageReject, h1, h2, h3]

/-- Witness for C4 at a concrete reject message with all three fields
set. -/
theorem C4_reject_witness :
    sends (onMessageReject ⟨false⟩ ⟨[(262, "REQ-1"), (281, "0"), (58, "bad sym")]⟩).2 = []
    ∧ (onMessageReject ⟨false⟩ ⟨[(262, "REQ-1"), (281, "0"), (58, "bad sym")]⟩).2
        = [Output.log ("MD Reject (35=Y) MDReqID=REQ-1 reason(281)=0 text=bad sym")] := by
  refine ⟨(C4_reject_surfaced_no_retry ⟨false⟩
    ⟨[(262, "REQ-1"), (281, "0"), (58, "bad sym")]⟩).2.1, ?_⟩
  rw [(C4_reject_surfaced_no_retry ⟨false⟩
    ⟨[(262, "REQ-1"), (281, "0"), (58, "bad sym")]⟩).2.2.2 rfl rfl rfl]
  rfl

/-- C5: with Username and Password defined in the settings, `toAdmin`
writes tags 553 and 554 with exactly those values on every outbound
Logon (35=A), changes none of its other fields, and leaves every other
admin message entirely unchanged. -/
theorem C5_toAdmin_credentials (d : Dictionary) (m : Msg)
    (hu : d.has ("Username") = true) (hp : d.has ("Password") = true) :
    (m.msgType = "A" →
        (toAdmin d m).body.lookup 553 = some (d.getString ("Username"))
        ∧ (toAdmin d m).body.lookup 554 = some (d.getString ("Password"))
        ∧ (∀ t : Nat, t ≠ 553 → t ≠ 554 → (toAdmin d m).body.lookup t = m.body.lookup t)
        ∧ (toAdmin d m).msgType = m.msgType
        ∧ (toAdmin d m).header = m.header
        ∧ (toAdmin d m).groups = m.groups)
    ∧ (m.msgType ≠ "A" → toAdmin d m = m) := by
  constructor
  · intro hA
    have hbody : (toAdmin d m).body
        = setField (setField m.body 553 (d.getString ("Username"))) 554
            (d.getString ("Password")) := by
      simp [toAdmin, hA, hu, hp]
    have hrest : (toAdmin d m).msgType = m.msgType ∧ (toAdmin d m).header = m.header
        ∧ (toAdmin d m).groups = m.groups := by
      simp [toAdmin, hA, hu, hp]
    refine ⟨?_, ?_, ?_, hrest.1, hrest.2.1, hrest.2.2⟩
    · rw [hbody, lookup_setField_ne _ _ _ _ (by decide), lookup_setField_self]
    · rw [hbody, lookup_setField_self]
    · intro t h3 h4
      rw [hbody, lookup_setField_ne _ _ _ _ h4, lookup_setField_ne _ _ _ _ h3]
  · intro hA
    simp [toAdmin, hA]

/-- Witness for C5 at concrete settings, a Logon and a Heartbeat. -/
theorem C5_toAdmin_witness :
    (toAdmin [("Username", "u1"), ("Password", "p1")]
        ⟨"A", [(35, "A")], [(98, "0"), (108, "20")], []⟩).body.lookup 553 = some ("u1")
    ∧ toAdmin [("Username", "u1"), ("Password", "p1")] ⟨"0", [(35, "0")], [], []⟩
        = ⟨"0", [(35, "0")], [], []⟩ := by
  constructor
  · exact ((C5_toAdmin_credentials [("Username", "u1"), ("Password", "p1")]
      ⟨"A", [(35, "A")], [(98, "0"), (108, "20")], []⟩ rfl rfl).1 rfl).1
  · exact (C5_toAdmin_credentials [("Username", "u1"), ("Password", "p1")]
      ⟨"0", [(35, "0")], [], []⟩ rfl rfl).2 (by decide)

/-- C6: the first-data flag is one-shot -- set by the snapshot handler,
never cleared by any callback -- and the embedder wait returns the flag
as observed at the deadline without changing any state; with no
snapshot among the delivered events it returns a negative result. -/
theorem C6_first_data_one_shot :
    (∀ (d : Dictionary) (st : AppState) (e : Event),
        st.firstData = true → ((step d st e).1).firstData = true)
    ∧ (∀ (d : Dictionary) (st : AppState) (snap : SnapshotMsg),
        ((step d st (Event.snapshot snap)).1).firstData = true)
    ∧ (∀ (st : AppState) (ms : Nat), waitFirstDataMs st ms = (st.firstData, st))
    ∧ (∀ (d : Dictionary) (evs : List Event) (ms : Nat),
        (∀ snap : SnapshotMsg, Event.snapshot snap ∉ evs) →
          waitFirstDataMs (runTrace d ⟨false⟩ evs) ms
            = (false, runTrace d ⟨false⟩ evs)) := by
  refine ⟨?_, ?_, ?_, ?_⟩
  · intro d st e h
    cases e with
    | logon sid => exact h
    | snapshot snap => rfl
    | reject rej => exact h
    | logout sid => exact h
  · intro d st snap
    rfl
  · intro st ms
    rfl
  · intro d evs ms h
    rw [runTrace_no_snapshot d evs ⟨false⟩ h]
    rfl

/-- Witness for C6: a true flag survives a logout callback, and a trace
with no snapshot leaves the wait negative with the state untouched. -/
theorem C6_first_data_witness :
    ((step ([] : Dictionary) ⟨true⟩ (Event.logout ("S"))).1).firstData = true
    ∧ waitFirstDataMs (runTrace ([] : Dictionary) ⟨false⟩ [Event.logon ("S")]) 60000
        = (false, runTrace ([] : Dictionary) ⟨false⟩ [Event.logon ("S")]) := by
  constructor
  · exact C6_first_data_one_shot.1 ([] : Dictionary) ⟨true⟩ (Event.logout ("S")) rfl
  · refine C6_first_data_one_shot.2.2.2 ([] : Dictionary) [Event.logon ("S")] 60000 ?_
    intro snap hm
    simp at hm

/-- C7: exit code 0 on clean shutdown, 1 (with a diagnostic on the
error stream) when an exception escapes to main, 2 when no settings
file argument is supplied. -/
theorem C7_exit_codes (prog cfg : String) (rest : List String)
    (body : Except String Unit) (e : String) :
    mainExit prog [] body = (2, ["usage: " ++ prog ++ " client.cfg"])
    ∧ mainExit prog (cfg :: rest) (Except.ok ()) = (0, [])
    ∧ mainExit prog (cfg :: rest) (Except.error e) = (1, ["fatal: " ++ e]) :=
  ⟨rfl, rfl, rfl⟩

/-- C8: without a Symbols entry in the settings, both the subscribe and
the unsubscribe request carry exactly one NoRelatedSym (146) group and
its Symbol (55) is GBPUSD. -/
theorem C8_default_symbol (d : Dictionary) (h : d.has ("Symbols") = false) :
    ((sendSubscribe d).groups.filter (fun g => g.1 == 146)).length = 1
    ∧ (sendSubscribe d).relatedSyms = ["GBPUSD"]
    ∧ ((sendUnsubscribeAll d).groups.filter (fun g => g.1 == 146)).length = 1
    ∧ (sendUnsubscribeAll d).relatedSyms = ["GBPUSD"] := by
  have hraw : rawSymbols d = "GBPUSD" := by simp [rawSymbols, h]
  have hsplit : splitCSV (rawSymbols d) = ["GBPUSD"] := by
    rw [hraw]
    rfl
  refine ⟨?_, ?_, ?_, ?_⟩
  · simp [sendSubscribe, hsplit]
  · rw [sendSubscribe_relatedSyms, hsplit]
  · simp [sendUnsubscribeAll, hsplit]
  · rw [sendUnsubscribeAll_relatedSyms, hsplit]

/-- Witness for C8 at the empty settings dictionary. -/
theorem C8_default_symbol_witness :
    ((sendSubscribe ([] : Dictionary)).groups.filter (fun g => g.1 == 146)).length = 1
    ∧ (sendSubscribe ([] : Dictionary)).relatedSyms = ["GBPUSD"] := by
  obtain ⟨h1, h2, h3, h4⟩ := C8_default_symbol ([] : Dictionary) rfl
  exact ⟨h1, h2⟩

/-- C9: splitCSV returns exactly the non-empty maximal comma-free
substrings of its input in order (it equals splitting on commas and
dropping the empty chunks), so no symbol it produces is empty and no
request of the client carries an empty Symbol value. -/
theorem C9_splitCSV_chunks :
    (∀ s : String,
        splitCSV s
          = ((s.toList.splitOn ',').filter (fun t => !t.isEmpty)).map (fun l => String.mk l))
    ∧ (∀ s : String, ∀ t ∈ splitCSV s, t ≠ "" ∧ ',' ∉ t.toList)
    ∧ (∀ d : Dictionary,
        "" ∉ (sendSubscribe d).relatedSyms ∧ "" ∉ (sendUnsubscribeAll d).relatedSyms) := by
  have hmem : ∀ s : String, ∀ t ∈ splitCSV s, t ≠ "" ∧ ',' ∉ t.toList := by
    intro s t ht
    rw [splitCSV, List.mem_map] at ht
    obtain ⟨l, hl, rfl⟩ := ht
    obtain ⟨h1, h2⟩ := splitCSVAux_mem s.toList [] l (by simp) hl
    exact ⟨fun h => h1 (congrArg String.toList h), h2⟩
  refine ⟨?_, hmem, ?_⟩
  · intro s
    rw [splitCSV, splitCSVAux_splitOn s.toList [] (by simp), List.nil_append]
  · intro d
    constructor
    · rw [sendSubscribe_relatedSyms]
      intro hm
      exact (hmem (rawSymbols d) "" hm).1 rfl
    · rw [sendUnsubscribeAll_relatedSyms]
      intro hm
      exact (hmem (rawSymbols d) "" hm).1 rfl

/-- Witness for C9 at an input with leading, repeated and trailing
commas. -/
theorem C9_splitCSV_witness :
    splitCSV (",a,,b,") = ["a", "b"]
    ∧ ("a" ≠ "" ∧ ',' ∉ "a".toList)
    ∧ "" ∉ (sendSubscribe ([] : Dictionary)).relatedSyms := by
  refine ⟨by decide, C9_splitCSV_chunks.2.1 (",a,,b,") "a" (by decide), ?_⟩
  exact (C9_splitCSV_chunks.2.2 ([] : Dictionary)).1

/-- C10: the snapshot handler classifies each entry from the first
character of MDEntryType only -- BID exactly when that character is 0,
ASK for every other value -- and never skips an entry over an
unexpected MDEntryType: one record per entry, always. -/
theorem C10_entry_classification (st : AppState) (snap : SnapshotMsg) :
    (records (onMessageSnapshot st snap).2).length = snap.entries.length
    ∧ records (onMessageSnapshot st snap).2
        = snap.entries.map (fun g => (snap.symbol, entrySide g.mdEntryType, g.mdEntryPx))
    ∧ (∀ t : String, entrySide t = Side.BID ↔ t.toList.headD (Char.ofNat 0) = '0')
    ∧ (∀ t1 t2 : String,
        t1.toList.headD (Char.ofNat 0) = t2.toList.headD (Char.ofNat 0) →
          entrySide t1 = entrySide t2) := by
  have h2 : records (onMessageSnapshot st snap).2
      = snap.entries.map (fun g => (snap.symbol, entrySide g.mdEntryType, g.mdEntryPx)) :=
    records_of_map snap.symbol snap.entries
  refine ⟨by rw [h2, List.length_map], h2, ?_, ?_⟩
  · intro t
    by_cases h : t.toList.headD (Char.ofNat 0) = '0'
    · simp [entrySide, classifyChar, h]
    · simp [entrySide, classifyChar, h]
  · intro t1 t2 h
    rw [entrySide, entrySide, h]

/-- Witness for C10: entry types 2 and 25 classify alike (only the
first character matters), a leading 0 gives BID, anything else ASK. -/
theorem C10_entry_witness :
    entrySide ("2") = entrySide ("25")
    ∧ entrySide ("0x") = Side.BID
    ∧ entrySide ("Z") = Side.ASK := by
  have h := C10_entry_classification ⟨false⟩ ⟨"GBPUSD", []⟩
  exact ⟨h.2.2.2 ("2") ("25") (by decide), (h.2.2.1 ("0x")).mpr (by decide), by decide⟩
